import Mathlib

/-!
Verification of the caluma form-expression engine specification.

The repository's visible sources are the JEXL test-suite
(`caluma/caluma_form/tests/test_jexl.py`) and the data-source base class
(`caluma/caluma_data_source/data_sources.py`).  The JEXL evaluator,
structure tree and validator (`jexl.py`, `structure.py`, `validators.py`)
are not part of the visible sources, so those components are modelled
from the specification (and, where the spec is silent or conflicts, from
the behaviour the test-suite pins down).  The data-source component is
embedded directly from `data_sources.py`.
-/

namespace Caluma

/-- Modelled from the spec: the closed set of question type tags
(`Question.TYPE_*` in `caluma_form/models.py`, which is not under the
visible sources). -/
inductive QuestionType where
  | text
  | textarea
  | integer
  | float
  | date
  | choice
  | multipleChoice
  | table
  | files
  | dynamicChoice
  | dynamicMultipleChoice
  | form
  | staticQ
deriving DecidableEq

/-- Modelled from the spec: the JEXL value universe — "a tagged union of
null/bool/number/string/list/mapping" (§9); mappings are not needed by
any claim and are omitted. -/
inductive Value where
  | null
  | bool (b : Bool)
  | num (n : Int)
  | str (s : String)
  | list (l : List Value)

mutual

/-- Modelled from the spec: JEXL value equality (`==` between evaluated
values), structural over the tagged union. -/
def Value.beq : Value → Value → Bool
  | .null, .null => true
  | .bool a, .bool b => a == b
  | .num a, .num b => a == b
  | .str a, .str b => a == b
  | .list a, .list b => Value.beqList a b
  | _, _ => false

/-- Elementwise list equality for `Value.beq`. -/
def Value.beqList : List Value → List Value → Bool
  | [], [] => true
  | a :: as, b :: bs => Value.beq a b && Value.beqList as bs
  | _, _ => false

end

instance : BEq Value := ⟨Value.beq⟩

mutual

theorem Value.beq_eq : ∀ a b : Value, Value.beq a b = true ↔ a = b
  | .null, .null => by simp [Value.beq]
  | .null, .bool _ | .null, .num _ | .null, .str _ | .null, .list _ =>
    by simp [Value.beq]
  | .bool _, .null | .bool _, .num _ | .bool _, .str _ | .bool _, .list _ =>
    by simp [Value.beq]
  | .bool a, .bool b => by simp [Value.beq]
  | .num _, .null | .num _, .bool _ | .num _, .str _ | .num _, .list _ =>
    by simp [Value.beq]
  | .num a, .num b => by simp [Value.beq]
  | .str _, .null | .str _, .bool _ | .str _, .num _ | .str _, .list _ =>
    by simp [Value.beq]
  | .str a, .str b => by simp [Value.beq]
  | .list _, .null | .list _, .bool _ | .list _, .num _ | .list _, .str _ =>
    by simp [Value.beq]
  | .list a, .list b => by
    simp only [Value.beq, Value.list.injEq]
    exact Value.beqList_eq a b

theorem Value.beqList_eq : ∀ a b : List Value, Value.beqList a b = true ↔ a = b
  | [], [] => by simp [Value.beqList]
  | [], _ :: _ => by simp [Value.beqList]
  | _ :: _, [] => by simp [Value.beqList]
  | a :: as, b :: bs => by
    simp only [Value.beqList, Bool.and_eq_true, List.cons.injEq]
    exact and_congr (Value.beq_eq a b) (Value.beqList_eq as bs)

end

instance : LawfulBEq Value where
  eq_of_beq h := (Value.beq_eq _ _).mp h
  rfl := (Value.beq_eq _ _).mpr rfl

instance : DecidableEq Value :=
  fun a b => decidable_of_iff _ (Value.beq_eq a b)

/-- Modelled from the spec: the per-kind "empty value" mapping (§9) —
null for scalar-like question types, the empty list for the multi-valued
types (multiple choice, table, dynamic multiple choice). -/
def emptyValue : QuestionType → Value
  | .multipleChoice => .list []
  | .table => .list []
  | .dynamicMultipleChoice => .list []
  | _ => .null

/-- Modelled from the spec: python truthiness used when a JEXL result is
consumed as a boolean (null, 0, empty string and empty list are falsy). -/
def truthy : Value → Bool
  | .null => false
  | .bool b => b
  | .num n => n != 0
  | .str s => !s.isEmpty
  | .list l => !l.isEmpty

/-- Modelled from the spec: the custom `intersects` infix operator over
two lists, "returning true iff they share at least one element by value
equality" (§4.1). -/
def intersects (a b : List Value) : Bool :=
  a.any fun x => b.any fun y => x == y

/-- Modelled from the spec: the fragment of the JEXL expression grammar
exercised by the `is_hidden` / `is_required` expressions of the claims:
literals, the `answer` transform (with an optional default argument),
equality, boolean connectives, division and `intersects`. -/
inductive Expr where
  | lit (v : Value)
  | answer (slug : String) (dflt : Option Value)
  | eq (a b : Expr)
  | and (a b : Expr)
  | or (a b : Expr)
  | not (a : Expr)
  | div (a b : Expr)
  | intersects (a b : Expr)

/-- Modelled from the spec: the error kinds of §7 — `QuestionMissing`
for a dangling `answer` reference, a typed evaluation error for type or
arithmetic failures, and fuel exhaustion standing for non-termination of
the recursive evaluation. -/
inductive EvalErr where
  | questionMissing (slug : String)
  | evalError
  | outOfFuel
deriving DecidableEq

/-- Modelled from the spec: one Structure-Tree `Field` — "a structure
tree node pairing one question with its answer within one document";
`parent` names the form-question through which the field's enclosing
`FieldSet` is reached (none at the document root). -/
structure Field where
  slug : String
  qtype : QuestionType
  isHiddenExpr : Expr
  isRequiredExpr : Expr
  parent : Option String
  answer : Option Value

/-- Modelled from the spec: the slug-indexed lookup used by the `answer`
transform (`get_field` in `structure.py`): the first field carrying the
given slug in the document-wide search order. -/
def get_field (doc : List Field) (slug : String) : Option Field :=
  doc.find? fun f => f.slug == slug

/-- Modelled from the spec: the referenced-question extraction used by
the dependency guard — the slugs appearing as subjects of `answer`
transforms inside an expression. -/
def extractDeps : Expr → List String
  | .lit _ => []
  | .answer slug _ => [slug]
  | .eq a b => extractDeps a ++ extractDeps b
  | .and a b => extractDeps a ++ extractDeps b
  | .or a b => extractDeps a ++ extractDeps b
  | .not a => extractDeps a
  | .div a b => extractDeps a ++ extractDeps b
  | .intersects a b => extractDeps a ++ extractDeps b

/-- Modelled from the spec: expression evaluation (§4.1/§4.2),
parameterised by the hidden-state oracle `hf` so that the mutual
recursion with `is_hidden` is broken explicitly.  The `answer` transform
follows §4.2 together with `test_optional_answer_transform`: a missing
question raises `QuestionMissing` only when no default argument is
supplied — with a default, the default is returned; a hidden or
unanswered question yields the default when supplied, and the
type-appropriate empty value otherwise. -/
def evalExprWith (hf : List String → Field → Except EvalErr Bool)
    (doc : List Field) (stack : List String) : Expr → Except EvalErr Value
  | .lit v => .ok v
  | .answer slug dflt =>
    match get_field doc slug with
    | none =>
      match dflt with
      | some d => .ok d
      | none => .error (.questionMissing slug)
    | some f =>
      match hf stack f with
      | .error e => .error e
      | .ok true => .ok (dflt.getD (emptyValue f.qtype))
      | .ok false =>
        match f.answer with
        | none => .ok (dflt.getD (emptyValue f.qtype))
        | some v => .ok v
  | .eq a b =>
    match evalExprWith hf doc stack a, evalExprWith hf doc stack b with
    | .ok va, .ok vb => .ok (.bool (va == vb))
    | .error e, _ => .error e
    | _, .error e => .error e
  | .and a b =>
    match evalExprWith hf doc stack a, evalExprWith hf doc stack b with
    | .ok va, .ok vb => .ok (.bool (truthy va && truthy vb))
    | .error e, _ => .error e
    | _, .error e => .error e
  | .or a b =>
    match evalExprWith hf doc stack a, evalExprWith hf doc stack b with
    | .ok va, .ok vb => .ok (.bool (truthy va || truthy vb))
    | .error e, _ => .error e
    | _, .error e => .error e
  | .not a =>
    match evalExprWith hf doc stack a with
    | .ok va => .ok (.bool (!truthy va))
    | .error e => .error e
  | .div a b =>
    match evalExprWith hf doc stack a, evalExprWith hf doc stack b with
    | .ok (.num x), .ok (.num y) =>
      if y == 0 then .error .evalError else .ok (.num (x / y))
    | .error e, _ => .error e
    | _, .error e => .error e
    | _, _ => .error .evalError
  | .intersects a b =>
    match evalExprWith hf doc stack a, evalExprWith hf doc stack b with
    | .ok (.list xs), .ok (.list ys) => .ok (.bool (intersects xs ys))
    | .error e, _ => .error e
    | _, .error e => .error e
    | _, _ => .error .evalError

/-- Modelled from the spec: the all-dependencies-hidden check of the
dependency guard — `some true` when every referenced slug resolves to a
hidden field, `some false` when one resolves to a visible field, `none`
when a referenced slug does not resolve (the rule is then inapplicable
and the expression is evaluated, surfacing `QuestionMissing` there). -/
def allDepsHiddenWith (hf : Field → Except EvalErr Bool) (doc : List Field) :
    List String → Except EvalErr (Option Bool)
  | [] => .ok (some true)
  | s :: rest =>
    match get_field doc s with
    | none => .ok none
    | some g =>
      match hf g with
      | .error e => .error e
      | .ok true => allDepsHiddenWith hf doc rest
      | .ok false => .ok (some false)

/-- Modelled from the spec: `Field.is_hidden` (§4.3) with the
dependency/cycle guard.  `stack` is the set of in-flight field slugs; an
in-progress field is treated as hidden (fails closed).  A field is hidden
when (1) it is in-flight, or (2) its ancestor form-question is hidden, or
(3) its `is_hidden` expression references questions and all of them are
hidden (the behaviour pinned by `test_all_deps_hidden`), or (4) its
`is_hidden` expression evaluates truthy.  `fuel` bounds the recursion
depth across fields. -/
def is_hidden (doc : List Field) : Nat → List String → Field → Except EvalErr Bool
  | 0, _, _ => .error .outOfFuel
  | Nat.succ fuel, stack, f =>
    if stack.contains f.slug then .ok true
    else
      let stack' := f.slug :: stack
      let parentHidden : Except EvalErr Bool :=
        match f.parent with
        | none => .ok false
        | some pslug =>
          match get_field doc pslug with
          | none => .ok false
          | some p => is_hidden doc fuel stack' p
      match parentHidden with
      | .error e => .error e
      | .ok true => .ok true
      | .ok false =>
        let evalOwn : Except EvalErr Bool :=
          match evalExprWith (fun st g => is_hidden doc fuel st g) doc stack'
              f.isHiddenExpr with
          | .error e => .error e
          | .ok v => .ok (truthy v)
        match extractDeps f.isHiddenExpr with
        | [] => evalOwn
        | d :: ds =>
          match allDepsHiddenWith (fun g => is_hidden doc fuel stack' g) doc
              (d :: ds) with
          | .error e => .error e
          | .ok (some true) => .ok true
          | .ok _ => evalOwn
termination_by structural fuel _ _ => fuel

/-- Modelled from the spec: the public expression evaluation entry point
(`QuestionJexl.evaluate`), with the hidden-state oracle tied back to
`is_hidden` at the given fuel. -/
def evalExpr (doc : List Field) (fuel : Nat) (stack : List String) :
    Expr → Except EvalErr Value :=
  evalExprWith (fun st g => is_hidden doc fuel st g) doc stack

/-- Modelled from the spec: `Field.is_required` (§4.3) — a hidden field
is definitionally not required; otherwise the guard's
all-dependencies-hidden rule resolves to not-required, and otherwise the
`is_required` expression is evaluated truthily. -/
def is_required (doc : List Field) (fuel : Nat) (f : Field) : Except EvalErr Bool :=
  match is_hidden doc fuel [] f with
  | .error e => .error e
  | .ok true => .ok false
  | .ok false =>
    let evalOwn : Except EvalErr Bool :=
      match evalExpr doc fuel [f.slug] f.isRequiredExpr with
      | .error e => .error e
      | .ok v => .ok (truthy v)
    match extractDeps f.isRequiredExpr with
    | [] => evalOwn
    | d :: ds =>
      match allDepsHiddenWith (fun g => is_hidden doc fuel [f.slug] g) doc
          (d :: ds) with
      | .error e => .error e
      | .ok (some true) => .ok false
      | .ok _ => evalOwn

/-- Modelled from the spec: `Field.is_hidden(raise_on_error=...)` (§4.4)
— when the underlying evaluation fails, `raise_on_error = true`
propagates the error and `raise_on_error = false` swallows it, reporting
`none` (null / "unknown"). -/
def is_hidden_catching (doc : List Field) (fuel : Nat) (f : Field)
    (raise_on_error : Bool) : Except EvalErr (Option Bool) :=
  match is_hidden doc fuel [] f with
  | .ok b => .ok (some b)
  | .error e => if raise_on_error then .error e else .ok none

/-- Modelled from the spec: the visibility traversal underlying
`DocumentValidator.visible_questions` — the fields of the worklist whose
`is_hidden` evaluates false; an evaluation error fails the traversal. -/
def visFields (doc : List Field) (fuel : Nat) :
    List Field → Except EvalErr (List Field)
  | [] => .ok []
  | f :: rest =>
    match is_hidden doc fuel [] f with
    | .error e => .error e
    | .ok true => visFields doc fuel rest
    | .ok false =>
      match visFields doc fuel rest with
      | .error e => .error e
      | .ok vs => .ok (f :: vs)

/-- Modelled from the spec: `DocumentValidator.visible_questions` —
"same traversal, returning the question set without the requiredness
check" (§4.4). -/
def visible_questions (doc : List Field) (fuel : Nat) :
    Except EvalErr (List Field) :=
  visFields doc fuel doc

/-- Modelled from the spec: the violation-collecting traversal of
`DocumentValidator.validate` over a worklist — for each visible field
whose `is_required` is true and whose answer is absent, one violation
(its slug) is recorded; structural errors (`QuestionMissing`, evaluation
errors) fail the whole validation. -/
def validateFields (doc : List Field) (fuel : Nat) :
    List Field → Except EvalErr (List String)
  | [] => .ok []
  | f :: rest =>
    match is_hidden doc fuel [] f with
    | .error e => .error e
    | .ok true => validateFields doc fuel rest
    | .ok false =>
      match is_required doc fuel f with
      | .error e => .error e
      | .ok r =>
        match validateFields doc fuel rest with
        | .error e => .error e
        | .ok vs => .ok (if r && f.answer.isNone then f.slug :: vs else vs)

namespace DocumentValidator

/-- Modelled from the spec: `DocumentValidator.validate` (§4.4) — walks
the document's fields, collecting one violation per visible, required
but unanswered field; success is the empty violation list, and a
structural error (such as `QuestionMissing`) fails the whole
validation. -/
def validate (doc : List Field) (fuel : Nat) : Except EvalErr (List String) :=
  validateFields doc fuel doc

end DocumentValidator

/-- Modelled from the spec: the static-validation view of a JEXL
expression — what the structural pass of `QuestionJexl.validate` can
see: literals, `answer` / `mapby` transform applications with their
subject expressions, and boolean connectives.  Runtime values are
irrelevant; an `answer` subject is valid exactly when it is a string
literal. -/
inductive RawExpr where
  | strLit (s : String)
  | numLit (n : Int)
  | listLit
  | answerT (subject : RawExpr)
  | mapbyT (subject : RawExpr) (key : String)
  | orOp (a b : RawExpr)
  | andOp (a b : RawExpr)

/-- Modelled from the spec: one structured static-validation error
record (§6) — either an invalid `answer` transform subject type, or a
parse failure such as an invalid operator. -/
inductive JexlError where
  | invalidSubject
  | parseError
deriving DecidableEq

/-- Modelled from the spec: the structural pass of static validation —
one `invalidSubject` error per `answer` transform whose subject is not a
string literal, collected across the whole expression tree. -/
def subjectErrors : RawExpr → List JexlError
  | .strLit _ => []
  | .numLit _ => []
  | .listLit => []
  | .answerT s =>
    (match s with
     | .strLit _ => []
     | _ => [JexlError.invalidSubject]) ++ subjectErrors s
  | .mapbyT s _ => subjectErrors s
  | .orOp a b => subjectErrors a ++ subjectErrors b
  | .andOp a b => subjectErrors a ++ subjectErrors b

/-- Modelled from the spec: the outcome of parsing an expression string
— a syntax tree, or a parse failure (for example an invalid operator
such as the `&&&` of the test-suite). -/
inductive ParseOutcome where
  | ok (e : RawExpr)
  | failed

namespace QuestionJexl

/-- Modelled from the spec: the static `QuestionJexl.validate` entry
point — never evaluates; an unparseable expression reports exactly one
error, and a parseable one reports one error per invalid transform
subject detected by the structural pass. -/
def validate : ParseOutcome → List JexlError
  | .failed => [JexlError.parseError]
  | .ok e => subjectErrors e

end QuestionJexl

/-! Data-source component, embedded from
`caluma/caluma_data_source/data_sources.py`. -/

/-- Python scalar values appearing in `get_data` entries (strings and
integers; the value part is compared via `str(data) == value`). -/
inductive PyVal where
  | str (s : String)
  | int (n : Int)
deriving DecidableEq

/-- Python `str(...)` on a `get_data` scalar. -/
def pyStr : PyVal → String
  | .str s => s
  | .int n => toString n

/-- A label position in a `get_data` entry: a plain (non-dict) value, or
a dict of translations. -/
inductive DSLabel where
  | py (v : PyVal)
  | dict (entries : List (String × String))
deriving DecidableEq

/-- A label as returned by `validate_answer_value`: dicts are returned
as-is, anything else is passed through `str(...)`. -/
inductive DSLabelOut where
  | str (s : String)
  | dict (entries : List (String × String))
deriving DecidableEq

/-- One entry of `BaseDataSource.get_data`: either a bare value (used as
both value and label), or an iterable whose first element is the value
and whose last element is the label (a one-element iterable has the same
value in both roles). -/
inductive DSEntry where
  | bare (v : PyVal)
  | iter (first : PyVal) (last : DSLabel)
deriving DecidableEq

/-- The label coercion of `validate_answer_value`: `label = str(label)`
unless the label is a dict. -/
def coerceLabel : DSLabel → DSLabelOut
  | .py v => .str (pyStr v)
  | .dict d => .dict d

/-- One loop step of `validate_answer_value`: the label produced by a
`get_data` entry when its value part stringifies equal to `value`. -/
def entryLabel (value : String) : DSEntry → Option DSLabelOut
  | .bare v => if pyStr v == value then some (.str (pyStr v)) else none
  | .iter first last =>
    if pyStr first == value then some (coerceLabel last) else none

/-- A stored `DynamicOption` row (document, question, slug, label). -/
structure DynamicOption where
  document : String
  question : String
  slug : String
  label : DSLabelOut
deriving DecidableEq

/-- The result of `validate_answer_value`: a label, or `False`. -/
inductive AnswerValidation where
  | label (l : DSLabelOut)
  | invalid
deriving DecidableEq

namespace BaseDataSource

/-- Embedded from `BaseDataSource.validate_answer_value`
(`data_sources.py` lines 61-76): scan the `get_data` entries in order and
return the (coerced) label of the first entry whose value part
stringifies equal to `value`; otherwise return the label of the first
stored `DynamicOption` matching document, question and `slug = value`;
otherwise `False`. -/
def validate_answer_value (value : String) (data : List DSEntry)
    (document question : String) (options : List DynamicOption) :
    AnswerValidation :=
  match data.findSome? (entryLabel value) with
  | some l => .label l
  | none =>
    match options.find? fun o =>
        o.document == document && o.question == question && o.slug == value with
    | some o => .label o.label
    | none => .invalid

end BaseDataSource

/-! Concrete sample documents, mirroring the fixtures of
`test_jexl.py`. -/

/-- The hidden `sub_question` of `test_answer_transform_on_hidden_question`:
statically hidden, with a stored answer value. -/
def hiddenStored : Field :=
  { slug := "sub_question", qtype := .text,
    isHiddenExpr := .lit (.bool true), isRequiredExpr := .lit (.bool true),
    parent := none, answer := some (.str "hello") }

/-- A visible, unanswered question. -/
def visibleEmpty : Field :=
  { slug := "column", qtype := .integer,
    isHiddenExpr := .lit (.bool false), isRequiredExpr := .lit (.bool false),
    parent := none, answer := none }

/-- A visible question with a stored answer. -/
def visibleStored : Field :=
  { slug := "top_question", qtype := .text,
    isHiddenExpr := .lit (.bool false), isRequiredExpr := .lit (.bool false),
    parent := none, answer := some (.str "xyz") }

/-- A three-field document with a hidden-but-answered, a visible
unanswered and a visible answered question. -/
def mixedDoc : List Field := [hiddenStored, visibleEmpty, visibleStored]

/-- The hidden form question of `test_indirectly_hidden_dependency`. -/
def topformquestion : Field :=
  { slug := "topformquestion", qtype := .form,
    isHiddenExpr := .lit (.bool true), isRequiredExpr := .lit (.bool false),
    parent := none, answer := none }

/-- A sub-question that is visible and required by its own expressions
but sits below the hidden `topformquestion`. -/
def subQuestion1 : Field :=
  { slug := "subquestion1", qtype := .integer,
    isHiddenExpr := .lit (.bool false), isRequiredExpr := .lit (.bool true),
    parent := some "topformquestion", answer := none }

/-- Document with a hidden form question and a child below it. -/
def nestedDoc : List Field := [topformquestion, subQuestion1]

/-- Field `a` of a genuinely circular pair: its visibility references
`b`. -/
def cycleA : Field :=
  { slug := "a", qtype := .text,
    isHiddenExpr := .eq (.answer "b" none) (.lit .null),
    isRequiredExpr := .lit (.bool false), parent := none, answer := none }

/-- Field `b` of the circular pair: its visibility and requiredness
reference `a`, which references `b` back. -/
def cycleB : Field :=
  { slug := "b", qtype := .text,
    isHiddenExpr := .eq (.answer "a" none) (.lit .null),
    isRequiredExpr := .eq (.answer "a" none) (.lit (.str "x")),
    parent := none, answer := some (.str "stored") }

/-- The two-field circular document. -/
def cycleDoc : List Field := [cycleA, cycleB]

/-- `q1` of `test_all_deps_hidden`: statically hidden. -/
def depQ1 : Field :=
  { slug := "q1", qtype := .integer,
    isHiddenExpr := .lit (.bool true), isRequiredExpr := .lit (.bool false),
    parent := none, answer := none }

/-- `q2` of `test_all_deps_hidden`: hidden and required expressions both
reference the hidden `q1`. -/
def depQ2 : Field :=
  { slug := "q2", qtype := .integer,
    isHiddenExpr := .eq (.answer "q1" none) (.lit (.str "blah")),
    isRequiredExpr := .eq (.answer "q1" none) (.lit (.str "blah")),
    parent := none, answer := none }

/-- The document of `test_all_deps_hidden`. -/
def depDoc : List Field := [depQ1, depQ2]

/-- The field of `test_optional_answer_transform`: its visibility uses
the `answer` transform with a default on a nonexistent slug. -/
def optionalField : Field :=
  { slug := "top_question", qtype := .text,
    isHiddenExpr := .eq (.answer "nonexistent" (some (.str "default")))
      (.lit (.str "default")),
    isRequiredExpr := .lit (.bool true), parent := none, answer := none }

/-- Single-field document for the defaulted missing-reference case. -/
def optionalDoc : List Field := [optionalField]

/-- The field of `test_reference_missing_question`: visibility
references a slug that exists nowhere, without a default. -/
def missingRefField : Field :=
  { slug := "depquestion", qtype := .integer,
    isHiddenExpr := .eq (.answer "subquestion-missing" none)
      (.lit (.str "blah")),
    isRequiredExpr := .lit (.bool false), parent := none, answer := none }

/-- Single-field document for the undefaulted missing-reference case. -/
def missingRefDoc : List Field := [missingRefField]

/-- The field of `test_evaluate_error_no_raise`: its stored expression
is the failing `1234 / 0 == 1`. -/
def errField : Field :=
  { slug := "top_question", qtype := .text,
    isHiddenExpr := .eq (.div (.lit (.num 1234)) (.lit (.num 0)))
      (.lit (.num 1)),
    isRequiredExpr := .lit (.bool false), parent := none, answer := none }

/-- Single-field document for the evaluation-error case. -/
def errDoc : List Field := [errField]

/-! Helper lemmas shared by the claim theorems. -/

/-- Every member of a successful `visFields` traversal evaluated to
not-hidden. -/
theorem visFields_mem_not_hidden (doc : List Field) (fuel : Nat) :
    ∀ (l vs : List Field) (g : Field), visFields doc fuel l = .ok vs →
      g ∈ vs → is_hidden doc fuel [] g = .ok false := by
  intro l
  induction l with
  | nil =>
    intro vs g h hg
    simp only [visFields] at h
    cases h
    cases hg
  | cons f rest ih =>
    intro vs g h hg
    simp only [visFields] at h
    cases hf : is_hidden doc fuel [] f with
    | error e => rw [hf] at h; cases h
    | ok b =>
      rw [hf] at h
      cases b with
      | true => exact ih vs g h hg
      | false =>
        cases hr : visFields doc fuel rest with
        | error e => rw [hr] at h; cases h
        | ok vs' =>
          rw [hr] at h
          cases h
          cases hg with
          | head => exact hf
          | tail _ hg' => exact ih vs' g hr hg'

/-! Claim theorems. -/

/-- C1: for every document and every slug resolving to a hidden
question, the `answer` transform without a default returns the
type-appropriate empty value even when an answer value is stored — null
for the scalar-like question types and the empty list for the
multi-valued ones. -/
theorem answer_transform_hidden_returns_empty :
    (∀ (doc : List Field) (fuel : Nat) (slug : String) (f : Field) (v : Value),
      get_field doc slug = some f →
      is_hidden doc fuel [] f = .ok true →
      f.answer = some v →
      evalExpr doc fuel [] (Expr.answer slug none) = .ok (emptyValue f.qtype))
    ∧ emptyValue .integer = .null ∧ emptyValue .float = .null
    ∧ emptyValue .date = .null ∧ emptyValue .text = .null
    ∧ emptyValue .textarea = .null ∧ emptyValue .choice = .null
    ∧ emptyValue .files = .null ∧ emptyValue .dynamicChoice = .null
    ∧ emptyValue .multipleChoice = .list [] ∧ emptyValue .table = .list []
    ∧ emptyValue .dynamicMultipleChoice = .list [] := by
  refine ⟨?_, rfl, rfl, rfl, rfl, rfl, rfl, rfl, rfl, rfl, rfl, rfl⟩
  intro doc fuel slug f v h1 h2 _
  simp only [evalExpr, evalExprWith, h1, h2, Option.getD]

/-- Witness for C1: in `mixedDoc` the hidden `sub_question` stores the
value `"hello"`, yet the `answer` transform returns its empty value. -/
theorem answer_transform_hidden_returns_empty_witness :
    get_field mixedDoc "sub_question" = some hiddenStored
    ∧ is_hidden mixedDoc 5 [] hiddenStored = .ok true
    ∧ hiddenStored.answer = some (Value.str "hello")
    ∧ evalExpr mixedDoc 5 [] (Expr.answer "sub_question" none)
        = .ok (emptyValue hiddenStored.qtype) :=
  ⟨rfl, rfl, rfl,
    answer_transform_hidden_returns_empty.1 mixedDoc 5 "sub_question"
      hiddenStored (Value.str "hello") rfl rfl rfl⟩

/-- C2: a field whose ancestor form-question is hidden reports hidden,
independent of its own `is_hidden` expression (the field is universally
quantified, so its expressions are arbitrary); consequently it is not
required and never appears among the visible questions. -/
theorem hidden_ancestor_hides_descendant :
    ∀ (doc : List Field) (fuel : Nat) (f p : Field) (pslug : String),
      f.parent = some pslug →
      get_field doc pslug = some p →
      is_hidden doc fuel [f.slug] p = .ok true →
      is_hidden doc (fuel + 1) [] f = .ok true
      ∧ is_required doc (fuel + 1) f = .ok false
      ∧ ∀ vs, visible_questions doc (fuel + 1) = .ok vs → f ∉ vs := by
  intro doc fuel f p pslug h1 h2 h3
  have hh : is_hidden doc (fuel + 1) [] f = .ok true := by
    simp only [is_hidden, List.contains, List.elem, h1, h2, h3]
    rfl
  refine ⟨hh, ?_, ?_⟩
  · simp only [is_required, hh]
  · intro vs hvs hmem
    have := visFields_mem_not_hidden doc (fuel + 1) doc vs f hvs hmem
    rw [hh] at this
    cases this

/-- Witness for C2: `subquestion1` carries visible/required expressions
of its own but sits below the hidden `topformquestion`, so it reports
hidden. -/
theorem hidden_ancestor_hides_descendant_witness :
    subQuestion1.parent = some "topformquestion"
    ∧ get_field nestedDoc "topformquestion" = some topformquestion
    ∧ is_hidden nestedDoc 4 [subQuestion1.slug] topformquestion = .ok true
    ∧ is_hidden nestedDoc 5 [] subQuestion1 = .ok true :=
  ⟨rfl, rfl, rfl,
    (hidden_ancestor_hides_descendant nestedDoc 4 subQuestion1 topformquestion
      "topformquestion" rfl rfl rfl).1⟩

/-- C3: the dependency/cycle guard resolves fail-closed — an in-flight
field is treated as hidden, a hidden field is never required, and both
the genuinely circular document `cycleDoc` and the
`test_all_deps_hidden` document `depDoc` terminate with finite fuel,
reporting the dependent field hidden and not required. -/
theorem cycle_guard_fail_closed :
    (∀ (doc : List Field) (fuel : Nat) (stack : List String) (f : Field),
      stack.contains f.slug = true →
      is_hidden doc (fuel + 1) stack f = .ok true)
    ∧ (∀ (doc : List Field) (fuel : Nat) (f : Field),
      is_hidden doc fuel [] f = .ok true →
      is_required doc fuel f = .ok false)
    ∧ is_hidden cycleDoc 10 [] cycleB = .ok true
    ∧ is_required cycleDoc 10 cycleB = .ok false
    ∧ is_hidden depDoc 10 [] depQ2 = .ok true
    ∧ is_required depDoc 10 depQ2 = .ok false := by
  refine ⟨?_, ?_, rfl, rfl, rfl, rfl⟩
  · intro doc fuel stack f h
    simp only [is_hidden, h]
    rfl
  · intro doc fuel f h
    simp only [is_required, h]

/-- Witness for C3: with the slug `b` already in-flight, the guard
reports the circular field `b` hidden immediately. -/
theorem cycle_guard_fail_closed_witness :
    (["b"] : List String).contains cycleB.slug = true
    ∧ is_hidden cycleDoc 10 ["b"] cycleB = .ok true :=
  ⟨rfl, cycle_guard_fail_closed.1 cycleDoc 9 ["b"] cycleB rfl⟩

/-- Counterexample for C4 as stated: an `answer` transform invocation on
the nonexistent slug `nonexistent` with a default argument does not
raise `QuestionMissing` — it returns the default, and the whole
validation of `optionalDoc` succeeds (mirroring
`test_optional_answer_transform`). -/
theorem answer_missing_with_default_counterex :
    get_field optionalDoc "nonexistent" = none
    ∧ evalExpr optionalDoc 10 []
        (Expr.answer "nonexistent" (some (Value.str "default")))
        = .ok (Value.str "default")
    ∧ DocumentValidator.validate optionalDoc 10 = .ok [] :=
  ⟨rfl, rfl, rfl⟩

/-- C4 (amended): an `answer` transform referencing a slug that exists
nowhere in the document raises `QuestionMissing` whenever no default
argument is supplied — and, as in `test_reference_missing_question`,
such an error fails the whole validation; with a default argument the
default is returned instead. -/
theorem answer_missing_raises_question_missing :
    (∀ (doc : List Field) (fuel : Nat) (stack : List String) (slug : String),
      get_field doc slug = none →
      evalExpr doc fuel stack (Expr.answer slug none)
        = .error (.questionMissing slug)
      ∧ ∀ d, evalExpr doc fuel stack (Expr.answer slug (some d)) = .ok d)
    ∧ DocumentValidator.validate missingRefDoc 10
        = .error (.questionMissing "subquestion-missing") := by
  refine ⟨?_, rfl⟩
  intro doc fuel stack slug h1
  constructor
  · simp only [evalExpr, evalExprWith, h1]
  · intro d
    simp only [evalExpr, evalExprWith, h1]

/-- Witness for C4 (amended): the undefaulted reference to
`subquestion-missing` in `missingRefDoc` raises `QuestionMissing`. -/
theorem answer_missing_raises_question_missing_witness :
    get_field missingRefDoc "subquestion-missing" = none
    ∧ evalExpr missingRefDoc 10 [] (Expr.answer "subquestion-missing" none)
        = .error (.questionMissing "subquestion-missing") :=
  ⟨rfl,
    (answer_missing_raises_question_missing.1 missingRefDoc 10 []
      "subquestion-missing" rfl).1⟩

/-- C5: when a field's stored expression fails to evaluate,
`is_hidden` with `raise_on_error = true` propagates the error and with
`raise_on_error = false` returns null instead; the concrete conjuncts
evaluate the failing `1234 / 0 == 1` expression of
`test_evaluate_error_no_raise`. -/
theorem raise_on_error_semantics :
    (∀ (doc : List Field) (fuel : Nat) (f : Field) (e : EvalErr),
      is_hidden doc fuel [] f = .error e →
      is_hidden_catching doc fuel f true = .error e
      ∧ is_hidden_catching doc fuel f false = .ok none)
    ∧ is_hidden errDoc 10 [] errField = .error .evalError
    ∧ is_hidden_catching errDoc 10 errField true = .error .evalError
    ∧ is_hidden_catching errDoc 10 errField false = .ok none := by
  refine ⟨?_, rfl, rfl, rfl⟩
  intro doc fuel f e h
  simp only [is_hidden_catching, h]
  exact ⟨rfl, rfl⟩

/-- Witness for C5: the division-by-zero field propagates the error
under `raise_on_error = true` and reports null under
`raise_on_error = false`. -/
theorem raise_on_error_semantics_witness :
    is_hidden errDoc 10 [] errField = .error .evalError
    ∧ is_hidden_catching errDoc 10 errField true = .error .evalError
    ∧ is_hidden_catching errDoc 10 errField false = .ok none :=
  ⟨rfl, (raise_on_error_semantics.1 errDoc 10 errField .evalError rfl).1,
    (raise_on_error_semantics.1 errDoc 10 errField .evalError rfl).2⟩

/-- C6: for every slug resolving to a question, `answer(slug, d)`
returns `d` when the question is hidden or unanswered and the stored
value otherwise; without a default, the hidden and unanswered cases
yield the type-appropriate empty value. -/
theorem answer_default_semantics :
    ∀ (doc : List Field) (fuel : Nat) (stack : List String) (slug : String)
      (f : Field) (d v : Value),
      get_field doc slug = some f →
      (is_hidden doc fuel stack f = .ok true →
        evalExpr doc fuel stack (Expr.answer slug (some d)) = .ok d
        ∧ evalExpr doc fuel stack (Expr.answer slug none)
            = .ok (emptyValue f.qtype))
      ∧ (is_hidden doc fuel stack f = .ok false → f.answer = none →
        evalExpr doc fuel stack (Expr.answer slug (some d)) = .ok d
        ∧ evalExpr doc fuel stack (Expr.answer slug none)
            = .ok (emptyValue f.qtype))
      ∧ (is_hidden doc fuel stack f = .ok false → f.answer = some v →
        evalExpr doc fuel stack (Expr.answer slug (some d)) = .ok v) := by
  intro doc fuel stack slug f d v h1
  refine ⟨?_, ?_, ?_⟩
  · intro h2
    constructor
    · simp only [evalExpr, evalExprWith, h1, h2, Option.getD]
    · simp only [evalExpr, evalExprWith, h1, h2, Option.getD]
  · intro h2 h3
    constructor
    · simp only [evalExpr, evalExprWith, h1, h2, h3, Option.getD]
    · simp only [evalExpr, evalExprWith, h1, h2, h3, Option.getD]
  · intro h2 h3
    simp only [evalExpr, evalExprWith, h1, h2, h3]

/-- Witness for C6: in `mixedDoc` the visible, answered `top_question`
returns its stored value in preference to the supplied default. -/
theorem answer_default_semantics_witness :
    get_field mixedDoc "top_question" = some visibleStored
    ∧ is_hidden mixedDoc 5 [] visibleStored = .ok false
    ∧ visibleStored.answer = some (Value.str "xyz")
    ∧ evalExpr mixedDoc 5 []
        (Expr.answer "top_question" (some (Value.str "dflt")))
        = .ok (Value.str "xyz") :=
  ⟨rfl, rfl, rfl,
    (answer_default_semantics mixedDoc 5 [] "top_question" visibleStored
      (Value.str "dflt") (Value.str "xyz") rfl).2.2 rfl rfl⟩

/-- C7: `intersects` is true exactly when the two lists share an element
by value equality; in particular the empty/empty and singleton/empty
cases are false and a shared singleton is true. -/
theorem intersects_iff_common_element :
    (∀ a b : List Value, intersects a b = true ↔ ∃ v, v ∈ a ∧ v ∈ b)
    ∧ intersects [] [] = false
    ∧ intersects [Value.num 1] [] = false
    ∧ intersects [Value.num 1] [Value.num 1] = true := by
  refine ⟨?_, rfl, rfl, rfl⟩
  intro a b
  simp only [intersects, List.any_eq_true, beq_iff_eq]
  constructor
  · rintro ⟨x, hxa, y, hyb, hxy⟩
    exact ⟨x, hxa, hxy ▸ hyb⟩
  · rintro ⟨v, hva, hvb⟩
    exact ⟨v, hva, v, hvb, rfl⟩

/-- C8: static validation reports exactly one error per independent
problem — zero for the well-formed expression, one for an invalid
`answer` subject type, two for two invalid subjects joined by `||` (the
errors of an `||` expression are exactly the concatenation of the two
sides' errors), and one for an unparseable expression (the invalid
`&&&` operator). -/
theorem static_validate_error_counts :
    QuestionJexl.validate
      (.ok (.mapbyT (.answerT (.strLit "question-slug")) "key")) = []
    ∧ (QuestionJexl.validate (.ok (.answerT (.numLit 100)))).length = 1
    ∧ (QuestionJexl.validate
        (.ok (.orOp (.answerT .listLit) (.answerT (.numLit 1))))).length = 2
    ∧ (QuestionJexl.validate .failed).length = 1
    ∧ ∀ a b : RawExpr,
        QuestionJexl.validate (.ok (.orOp a b))
          = QuestionJexl.validate (.ok a) ++ QuestionJexl.validate (.ok b) :=
  ⟨rfl, rfl, rfl, rfl, fun _ _ => rfl⟩

/-- First-match behaviour of `findSome?` over a split list. -/
theorem findSome?_first_label (value : String) :
    ∀ (pre : List DSEntry) (e : DSEntry) (post : List DSEntry) (l : DSLabelOut),
      (∀ x ∈ pre, entryLabel value x = none) →
      entryLabel value e = some l →
      (pre ++ e :: post).findSome? (entryLabel value) = some l := by
  intro pre
  induction pre with
  | nil =>
    intro e post l _ he
    simp [List.findSome?_cons, he]
  | cons a as ih =>
    intro e post l hall he
    have ha : entryLabel value a = none := hall a (by simp)
    simp only [List.cons_append, List.findSome?_cons, ha]
    exact ih e post l (fun x hx => hall x (by simp [hx])) he

/-- C10: `BaseDataSource.validate_answer_value` returns the label of
the first `get_data` entry whose value part stringifies equal to the
given value (bare entries supply themselves as label, non-dict labels
are coerced to a string and dict labels are kept as-is); when no entry
matches, a stored `DynamicOption` matching document, question and
`slug = value` supplies its label; the result is `False` exactly when
neither source yields a match. -/
theorem validate_answer_value_spec :
    (∀ (value : String) (pre post : List DSEntry) (e : DSEntry)
        (document question : String) (options : List DynamicOption)
        (l : DSLabelOut),
      (∀ x ∈ pre, entryLabel value x = none) →
      entryLabel value e = some l →
      BaseDataSource.validate_answer_value value (pre ++ e :: post)
        document question options = .label l)
    ∧ (∀ (value : String) (data : List DSEntry) (document question : String)
        (options : List DynamicOption) (o : DynamicOption),
      (∀ x ∈ data, entryLabel value x = none) →
      options.find? (fun o => o.document == document
        && o.question == question && o.slug == value) = some o →
      BaseDataSource.validate_answer_value value data document question options
        = .label o.label)
    ∧ (∀ (value : String) (data : List DSEntry) (document question : String)
        (options : List DynamicOption),
      BaseDataSource.validate_answer_value value data document question options
        = .invalid
      ↔ (∀ x ∈ data, entryLabel value x = none)
        ∧ ∀ o ∈ options,
            ¬(o.document = document ∧ o.question = question ∧ o.slug = value))
    ∧ (∀ v : PyVal,
        entryLabel (pyStr v) (DSEntry.bare v) = some (.str (pyStr v)))
    ∧ (∀ (first : PyVal) (lab : DSLabel),
        entryLabel (pyStr first) (DSEntry.iter first lab)
          = some (coerceLabel lab))
    ∧ (∀ d, coerceLabel (.dict d) = DSLabelOut.dict d)
    ∧ (∀ v, coerceLabel (.py v) = DSLabelOut.str (pyStr v)) := by
  refine ⟨?_, ?_, ?_, ?_, ?_, fun _ => rfl, fun _ => rfl⟩
  · intro value pre post e document question options l hall he
    unfold BaseDataSource.validate_answer_value
    rw [findSome?_first_label value pre e post l hall he]
  · intro value data document question options o hall hf
    unfold BaseDataSource.validate_answer_value
    rw [List.findSome?_eq_none_iff.mpr hall, hf]
  · intro value data document question options
    unfold BaseDataSource.validate_answer_value
    cases hfs : data.findSome? (entryLabel value) with
    | some l =>
      constructor
      · intro h
        cases h
      · rintro ⟨hall, _⟩
        rw [List.findSome?_eq_none_iff.mpr hall] at hfs
        cases hfs
    | none =>
      cases hf : options.find? (fun o => o.document == document
          && o.question == question && o.slug == value) with
      | some o =>
        constructor
        · intro h
          cases h
        · rintro ⟨_, hnone⟩
          have hmem := List.mem_of_find?_eq_some hf
          have hpred := List.find?_some hf
          simp only [Bool.and_eq_true, beq_iff_eq] at hpred
          exact absurd ⟨hpred.1.1, hpred.1.2, hpred.2⟩ (hnone o hmem)
      | none =>
        constructor
        · intro _
          refine ⟨List.findSome?_eq_none_iff.mp hfs, ?_⟩
          intro o ho hc
          have := List.find?_eq_none.mp hf o ho
          simp only [Bool.and_eq_true, beq_iff_eq] at this
          exact this ⟨⟨hc.1, hc.2.1⟩, hc.2.2⟩
        · intro _
          rfl
  · intro v
    simp [entryLabel]
  · intro first lab
    simp [entryLabel]


/-- Witness for C10: a non-matching bare entry is skipped and the
matching pair entry supplies its dict label uncoerced. -/
theorem validate_answer_value_spec_witness :
    (∀ x ∈ [DSEntry.bare (PyVal.str "zz")], entryLabel "opt" x = none)
    ∧ entryLabel "opt"
        (DSEntry.iter (PyVal.str "opt") (DSLabel.dict [("en", "desc")]))
        = some (DSLabelOut.dict [("en", "desc")])
    ∧ BaseDataSource.validate_answer_value "opt"
        ([DSEntry.bare (PyVal.str "zz")]
          ++ DSEntry.iter (PyVal.str "opt") (DSLabel.dict [("en", "desc")]) :: [])
        "doc1" "q1" [] = .label (DSLabelOut.dict [("en", "desc")]) :=
  ⟨by decide, rfl,
    validate_answer_value_spec.1 "opt" [DSEntry.bare (PyVal.str "zz")] []
      (DSEntry.iter (PyVal.str "opt") (DSLabel.dict [("en", "desc")]))
      "doc1" "q1" [] (DSLabelOut.dict [("en", "desc")]) (by decide) rfl⟩

end Caluma
